import Mathlib

/-!
A shallow embedding of `src/starter.py` (`ZohoClient`, a Zoho Books API
client).  The Python client is modelled as pure functions over an explicit
record of the instance attributes (`ClientState`), parameterised by an
environment (`Env`) supplying the clock, the persisted refresh-token file
and the two HTTP oracles (token endpoint and resource API).  Every
operation additionally returns the list of observable effects it performed
(`Event`): token-endpoint POSTs, resource-API requests, refresh-token file
writes, and the interactive prompt.  Logging and file reads are treated as
unobservable; request headers are a fixed function of the access token and
are not tracked in events.  Python exceptions are modelled with `Except`.
JSON values are modelled by `JVal` (numbers as integers); timestamps are
integers (seconds), with `datetime.now() + timedelta(seconds = n)`
modelled as `now + n`.
-/

/-- A JSON value, as produced by `response.json()` and `json.load`. -/
inductive JVal where
  | jnull : JVal
  | jbool : Bool → JVal
  | jnum : Int → JVal
  | jstr : String → JVal
  | jarr : List JVal → JVal
  | jobj : List (String × JVal) → JVal

/-- Python truthiness of a JSON value (`if item:`): `None`, `False`, `0`,
empty string, empty list and empty dict are falsy. -/
def JVal.truthy : JVal → Bool
  | .jnull => false
  | .jbool b => b
  | .jnum n => n != 0
  | .jstr s => s != ""
  | .jarr l => !l.isEmpty
  | .jobj l => !l.isEmpty

/-- Python truthiness of an `Optional[str]` attribute (`if not self.x:`):
`None` and the empty string are falsy. -/
def pyTruthyStrOpt : Option String → Bool
  | none => false
  | some s => s != ""

/-- Dictionary lookup on a JSON value: `d[k]` when `d` is an object holding
key `k`, absent otherwise. -/
def jLookup : JVal → String → Option JVal
  | .jobj l, k => List.lookup k l
  | _, _ => none

/-- Python `d.get(k, default)` on a JSON object. -/
def jGetD (j : JVal) (k : String) (d : JVal) : JVal :=
  (jLookup j k).getD d

/-- Python `d.get(k)` for a field the client stores into an
`Optional[str]` attribute: a string value is kept, absence and JSON `null`
give `None`.  (A non-string value under these keys is not modelled; the
client only ever meets string tokens.) -/
def jGetStr (j : JVal) (k : String) : Option String :=
  match jLookup j k with
  | some (.jstr s) => some s
  | _ => none

/-- Python `d.get("expires_in", 3600)` fed to `timedelta(seconds=...)`: a
numeric value is used, absence gives the default.  (A non-numeric value,
on which the source would raise inside `timedelta`, is not modelled.) -/
def jGetIntD (j : JVal) (k : String) (d : Int) : Int :=
  match jLookup j k with
  | some (.jnum n) => n
  | _ => d

/-- Python dict assignment `d[k] = v` on a dict represented as an ordered
association list with unique keys: replace in place, else append. -/
def setKey : List (String × String) → String → String → List (String × String)
  | [], k, v => [(k, v)]
  | (k', v') :: rest, k, v =>
    if k' == k then (k, v) :: rest else (k', v') :: setKey rest k v

/-- An HTTP response: status code and parsed JSON body. -/
structure Response where
  status : Nat
  body : JVal

/-- The mutable attributes of a `ZohoClient` instance (the constructor
arguments are immutable after `__init__`). -/
structure ClientState where
  client_id : String
  client_secret : String
  redirect_uri : String
  organization_id : String
  access_token : Option String
  refresh_token : Option String
  token_expiry : Option Int

/-- The environment of a run: current time, content of
`zoho_refresh_token.json` (`none` if the file does not exist), and the two
HTTP oracles.  `tokenResp` answers `requests.post(TOKEN_URL, params=...)`;
`resourceResp` answers `requests.request(method, BASE_URL/endpoint,
params=..., json=...)`. -/
structure Env where
  now : Int
  file : Option JVal
  tokenResp : List (String × String) → Response
  resourceResp : String → String → List (String × String) → Option JVal → Response

/-- An observable effect of a client operation. -/
inductive Event where
  | httpToken : List (String × String) → Event
  | httpResource : String → String → List (String × String) → Option JVal → Event
  | fileWrite : Option String → Event
  | prompt : Event

/-- Whether an event is a POST to the token endpoint. -/
def isTokenCall : Event → Bool
  | .httpToken _ => true
  | _ => false

/-- Whether an event is a request to the resource API. -/
def isResourceCall : Event → Bool
  | .httpResource _ _ _ _ => true
  | _ => false

/-- Whether an event writes the refresh-token file. -/
def isFileWriteEv : Event → Bool
  | .fileWrite _ => true
  | _ => false

/-- Number of token-endpoint calls in a trace. -/
def countTokenCalls (es : List Event) : Nat :=
  (es.filter isTokenCall).length

/-- Number of resource-API requests in a trace. -/
def countResourceCalls (es : List Event) : Nat :=
  (es.filter isResourceCall).length

/-- Number of refresh-token file writes in a trace. -/
def countFileWrites (es : List Event) : Nat :=
  (es.filter isFileWriteEv).length

/-- The state built by `__init__` before `_load_refresh_token` and
`_ensure_auth` run. -/
def initState (client_id client_secret redirect_uri organization_id : String) :
    ClientState :=
  { client_id := client_id, client_secret := client_secret,
    redirect_uri := redirect_uri, organization_id := organization_id,
    access_token := none, refresh_token := none, token_expiry := none }

/-- `_load_refresh_token`: if the file exists, set `self.refresh_token`
to the `refresh_token` field of its JSON content. -/
def load_refresh_token (env : Env) (s : ClientState) : ClientState :=
  match env.file with
  | none => s
  | some j => { s with refresh_token := jGetStr j "refresh_token" }

/-- The params dict `get_grant_token` sends to the token endpoint. -/
def grantParams (s : ClientState) (code : String) : List (String × String) :=
  [("code", code), ("client_id", s.client_id),
   ("client_secret", s.client_secret), ("redirect_uri", s.redirect_uri),
   ("grant_type", "authorization_code")]

/-- `get_grant_token(code)`: POST the authorization code to the token
endpoint; on status 200 store access and refresh tokens, set the expiry,
persist the refresh token (`_store_refresh_token`, inlined as a
`fileWrite` event) and return `True`; otherwise log and return `False`. -/
def get_grant_token (env : Env) (s : ClientState) (code : String) :
    Bool × ClientState × List Event :=
  let r := env.tokenResp (grantParams s code)
  if r.status == 200 then
    let s' : ClientState :=
      { s with access_token := jGetStr r.body "access_token",
               refresh_token := jGetStr r.body "refresh_token",
               token_expiry := some (env.now + jGetIntD r.body "expires_in" 3600) }
    (true, s', [.httpToken (grantParams s code), .fileWrite s'.refresh_token])
  else
    (false, s, [.httpToken (grantParams s code)])

/-- The params dict `refresh_access_token` sends to the token endpoint,
given the (truthy) refresh token in use. -/
def refreshParams (s : ClientState) (rt : String) : List (String × String) :=
  [("refresh_token", rt), ("client_id", s.client_id),
   ("client_secret", s.client_secret), ("redirect_uri", s.redirect_uri),
   ("grant_type", "refresh_token")]

/-- The body of `refresh_access_token()` after its optional
`_load_refresh_token()` (source lines 79-102): fail if no refresh token,
otherwise POST a refresh grant, and on status 200 update the access token
and expiry. -/
def refreshAttempt (env : Env) (s1 : ClientState) :
    Bool × ClientState × List Event :=
  if !pyTruthyStrOpt s1.refresh_token then
    (false, s1, [])
  else
    let ps := refreshParams s1 (s1.refresh_token.getD "")
    let r := env.tokenResp ps
    if r.status == 200 then
      (true,
       { s1 with access_token := jGetStr r.body "access_token",
                 token_expiry := some (env.now + jGetIntD r.body "expires_in" 3600) },
       [.httpToken ps])
    else
      (false, s1, [.httpToken ps])

/-- `refresh_access_token()`: if no refresh token is in memory, try to
load one from the file, then proceed with `refreshAttempt`. -/
def refresh_access_token (env : Env) (s : ClientState) :
    Bool × ClientState × List Event :=
  refreshAttempt env
    (if pyTruthyStrOpt s.refresh_token then s else load_refresh_token env s)

/-- The staleness test of `_ensure_valid_token`: `not self.access_token or
(self.token_expiry and datetime.now() >= self.token_expiry)`. -/
def tokenStale (env : Env) (s : ClientState) : Bool :=
  !pyTruthyStrOpt s.access_token ||
    (match s.token_expiry with
     | none => false
     | some e => decide (e ≤ env.now))

/-- `_ensure_valid_token()`: refresh when the token is absent or expired,
otherwise succeed with no effect. -/
def ensure_valid_token (env : Env) (s : ClientState) :
    Bool × ClientState × List Event :=
  if tokenStale env s then refresh_access_token env s else (true, s, [])

/-- `get_access_token()`: returns `self.access_token` if
`_ensure_valid_token()` succeeded, else `None`. -/
def get_access_token (env : Env) (s : ClientState) :
    Option String × ClientState × List Event :=
  let out := ensure_valid_token env s
  (if out.1 then out.2.1.access_token else none, out.2.1, out.2.2)

/-- A raised Python exception: `ValueError(msg)` or
`requests.exceptions.HTTPError` carrying the response status. -/
inductive PyError where
  | valueError : String → PyError
  | httpError : Nat → PyError

/-- `_make_request(method, endpoint, params=ps, json=body)`: obtain an
access token (raising `ValueError` if falsy), overwrite
`params["organization_id"]` with the client's organization id, issue the
request, and `raise_for_status()`: an `HTTPError` is raised exactly for
status codes in `[400, 600)`. -/
def make_request (env : Env) (s : ClientState) (method endpoint : String)
    (ps : List (String × String)) (body : Option JVal) :
    Except PyError Response × ClientState × List Event :=
  let t := get_access_token env s
  if !pyTruthyStrOpt t.1 then
    (.error (.valueError "Failed to obtain a valid access token."), t.2.1, t.2.2)
  else
    let params := setKey ps "organization_id" t.2.1.organization_id
    let r := env.resourceResp method endpoint params body
    let es := t.2.2 ++ [.httpResource method endpoint params body]
    if 400 ≤ r.status ∧ r.status < 600 then
      (.error (.httpError r.status), t.2.1, es)
    else
      (.ok r, t.2.1, es)

/-- `list_invoices()`: GET `invoices`, return
`response.json().get("invoices", [])`. -/
def list_invoices (env : Env) (s : ClientState) :
    Except PyError JVal × ClientState × List Event :=
  match make_request env s "GET" "invoices" [] none with
  | (.error e, s1, es) => (.error e, s1, es)
  | (.ok r, s1, es) => (.ok (jGetD r.body "invoices" (.jarr [])), s1, es)

/-- `list_items()`: GET `items`, return
`response.json().get("items", [])`. -/
def list_items (env : Env) (s : ClientState) :
    Except PyError JVal × ClientState × List Event :=
  match make_request env s "GET" "items" [] none with
  | (.error e, s1, es) => (.error e, s1, es)
  | (.ok r, s1, es) => (.ok (jGetD r.body "items" (.jarr [])), s1, es)

/-- `list_contacts()`: GET `contacts`, return
`response.json().get("contacts", [])`. -/
def list_contacts (env : Env) (s : ClientState) :
    Except PyError JVal × ClientState × List Event :=
  match make_request env s "GET" "contacts" [] none with
  | (.error e, s1, es) => (.error e, s1, es)
  | (.ok r, s1, es) => (.ok (jGetD r.body "contacts" (.jarr [])), s1, es)

/-- `get_item(item_id)`: GET `items/{item_id}`, return
`response.json().get("item", \x7b\x7d)`. -/
def get_item (env : Env) (s : ClientState) (item_id : String) :
    Except PyError JVal × ClientState × List Event :=
  match make_request env s "GET" ("items/" ++ item_id) [] none with
  | (.error e, s1, es) => (.error e, s1, es)
  | (.ok r, s1, es) => (.ok (jGetD r.body "item" (.jobj [])), s1, es)

/-- One line-item dict of `create_invoice`, built from a truthy item. -/
def mkLineItem (item_id : String) (quantity : Int) (item : JVal) : JVal :=
  .jobj [("item_id", .jstr item_id), ("name", jGetD item "name" .jnull),
    ("description", jGetD item "description" .jnull),
    ("rate", jGetD item "rate" .jnull), ("quantity", .jnum quantity)]

/-- The loop of `create_invoice` over `zip(items, quantities)`: look up
each item and append a line item when the looked-up entity is truthy;
an exception from a lookup propagates. -/
def buildLineItems (env : Env) :
    ClientState → List (String × Int) →
    Except PyError (List JVal) × ClientState × List Event
  | s, [] => (.ok [], s, [])
  | s, (item_id, quantity) :: rest =>
    match get_item env s item_id with
    | (.error e, s1, es) => (.error e, s1, es)
    | (.ok item, s1, es) =>
      match buildLineItems env s1 rest with
      | (.error e, s2, es2) => (.error e, s2, es ++ es2)
      | (.ok lis, s2, es2) =>
        (.ok (if item.truthy then mkLineItem item_id quantity item :: lis else lis),
         s2, es ++ es2)

/-- The JSON body `create_invoice` POSTs to `invoices`. -/
def invoiceBody (customer_id : String) (lis : List JVal) : JVal :=
  .jobj [("customer_id", .jstr customer_id), ("line_items", .jarr lis)]

/-- `create_invoice(customer_id, items, quantities)`: build line items by
one `get_item` lookup per zipped pair, then POST the invoice and return
`response.json().get("invoice", \x7b\x7d).get("invoice_id")`. -/
def create_invoice (env : Env) (s : ClientState) (customer_id : String)
    (items : List String) (quantities : List Int) :
    Except PyError JVal × ClientState × List Event :=
  match buildLineItems env s (items.zip quantities) with
  | (.error e, s1, es) => (.error e, s1, es)
  | (.ok lis, s1, es) =>
    match make_request env s1 "POST" "invoices" [] (some (invoiceBody customer_id lis)) with
    | (.error e, s2, es2) => (.error e, s2, es ++ es2)
    | (.ok r, s2, es2) =>
      (.ok (jGetD (jGetD r.body "invoice" (.jobj [])) "invoice_id" .jnull), s2, es ++ es2)

/-- `_ensure_auth()`: if no refresh token is in memory, prompt for an
authorization code (modelled by the `code` argument) and exchange it,
raising `ValueError` on failure; then `_ensure_valid_token()` (its result
is ignored). -/
def ensure_auth (env : Env) (s : ClientState) (code : String) :
    Except PyError ClientState × List Event :=
  if !pyTruthyStrOpt s.refresh_token then
    match get_grant_token env s code with
    | (false, _, es1) => (.error (.valueError "Failed to obtain grant token."), .prompt :: es1)
    | (true, s1, es1) =>
      let out := ensure_valid_token env s1
      (.ok out.2.1, .prompt :: (es1 ++ out.2.2))
  else
    let out := ensure_valid_token env s
    (.ok out.2.1, out.2.2)

/-- `__init__(client_id, client_secret, redirect_uri, organization_id)`:
set the attributes, `_load_refresh_token()`, then `_ensure_auth()`.
`code` is what `input()` would return if the prompt is reached. -/
def zohoInit (env : Env)
    (client_id client_secret redirect_uri organization_id code : String) :
    Except PyError ClientState × List Event :=
  ensure_auth env
    (load_refresh_token env (initState client_id client_secret redirect_uri organization_id))
    code

/-- Setting a key makes it look up to the set value. -/
theorem lookup_setKey (l : List (String × String)) (k v : String) :
    List.lookup k (setKey l k v) = some v := by
  induction l with
  | nil => simp [setKey, List.lookup]
  | cons p rest ih =>
    obtain ⟨k', v'⟩ := p
    by_cases h : k' = k
    · subst h
      simp [setKey, List.lookup]
    · have hkk : (k == k') = false := by simp [Ne.symm h]
      simp [setKey, List.lookup, h, hkk, ih]

/-- After setting a key in a dict (association list with unique keys),
every entry at that key holds the set value. -/
theorem mem_setKey (l : List (String × String)) (k v : String)
    (hnd : (l.map Prod.fst).Nodup) :
    ∀ p ∈ setKey l k v, p.1 = k → p.2 = v := by
  induction l with
  | nil =>
    intro p hp hk
    simp [setKey] at hp
    simp [hp]
  | cons q rest ih =>
    obtain ⟨k', v'⟩ := q
    simp only [List.map_cons, List.nodup_cons] at hnd
    obtain ⟨hnotin, hnd'⟩ := hnd
    intro p hp hk
    by_cases h : k' = k
    · subst h
      simp [setKey] at hp
      rcases hp with rfl | hp
      · rfl
      · exact absurd (hk ▸ List.mem_map_of_mem Prod.fst hp) hnotin
    · simp [setKey, h] at hp
      rcases hp with rfl | hp
      · exact absurd hk h
      · exact ih hnd' p hp hk

/-- A non-stale state has a truthy access token. -/
theorem access_truthy_of_fresh (env : Env) (s : ClientState)
    (h : tokenStale env s = false) : pyTruthyStrOpt s.access_token = true := by
  unfold tokenStale at h
  cases hb : pyTruthyStrOpt s.access_token
  · rw [hb] at h
    simp at h
  · rfl

/-- With a fresh token, `_ensure_valid_token` succeeds with no effects and
no state change. -/
theorem ensure_valid_token_fresh (env : Env) (s : ClientState)
    (h : tokenStale env s = false) :
    ensure_valid_token env s = (true, s, []) := by
  unfold ensure_valid_token
  rw [h]
  simp

/-- With a fresh token, `get_access_token` returns the stored token with
no effects and no state change. -/
theorem get_access_token_fresh (env : Env) (s : ClientState)
    (h : tokenStale env s = false) :
    get_access_token env s = (s.access_token, s, []) := by
  unfold get_access_token
  rw [ensure_valid_token_fresh env s h]
  simp

/-- With a fresh token, `_make_request` performs exactly one resource
request (the caller params with `organization_id` overwritten), raising
`HTTPError` exactly for statuses in `[400, 600)`. -/
theorem make_request_fresh (env : Env) (s : ClientState)
    (m ep : String) (ps : List (String × String)) (b : Option JVal)
    (h : tokenStale env s = false) :
    make_request env s m ep ps b =
      (if 400 ≤ (env.resourceResp m ep (setKey ps "organization_id" s.organization_id) b).status ∧
          (env.resourceResp m ep (setKey ps "organization_id" s.organization_id) b).status < 600
       then (.error (.httpError (env.resourceResp m ep (setKey ps "organization_id" s.organization_id) b).status),
             s, [.httpResource m ep (setKey ps "organization_id" s.organization_id) b])
       else (.ok (env.resourceResp m ep (setKey ps "organization_id" s.organization_id) b),
             s, [.httpResource m ep (setKey ps "organization_id" s.organization_id) b])) := by
  unfold make_request
  rw [get_access_token_fresh env s h]
  simp [access_truthy_of_fresh env s h]

/-- A client state as built by the constructor, before any token is
obtained. -/
def sBase : ClientState := initState "cid" "csec" "ruri" "org"

/-- A state holding a fresh access token (expiry 100, clock at 0). -/
def sFresh : ClientState :=
  { sBase with access_token := some "tok", token_expiry := some 100 }

/-- A state holding an expired access token and no refresh token. -/
def sExpiredNoRefresh : ClientState :=
  { sBase with access_token := some "tok", token_expiry := some (-1) }

/-- An environment with no stored file and both oracles answering status
200 with an empty JSON object. -/
def envOkEmpty : Env :=
  { now := 0, file := none,
    tokenResp := fun _ => { status := 200, body := .jobj [] },
    resourceResp := fun _ _ _ _ => { status := 200, body := .jobj [] } }

/-- A token endpoint answering 201 (a 2xx success) with a full token
pair. -/
def env201 : Env :=
  { envOkEmpty with tokenResp := fun _ =>
      { status := 201,
        body := .jobj [("access_token", .jstr "at"), ("refresh_token", .jstr "rt")] } }

/-- A resource API answering 304 (non-2xx, but below 400). -/
def env304 : Env :=
  { envOkEmpty with resourceResp := fun _ _ _ _ => { status := 304, body := .jobj [] } }

/-- A resource API answering 404. -/
def env404 : Env :=
  { envOkEmpty with resourceResp := fun _ _ _ _ => { status := 404, body := .jobj [] } }

/-- An environment whose file holds a refresh token while the token
endpoint answers 500. -/
def envFileTok : Env :=
  { envOkEmpty with
    file := some (.jobj [("refresh_token", .jstr "rt")])
    tokenResp := fun _ => { status := 500, body := .jobj [] } }

/-- A token endpoint answering 200 with a full token pair. -/
def envGrantOk : Env :=
  { envOkEmpty with tokenResp := fun _ =>
      { status := 200,
        body := .jobj [("access_token", .jstr "at"), ("refresh_token", .jstr "rt"),
                       ("expires_in", .jnum 3600)] } }

/-- A token-endpoint event is not a resource call. -/
theorem token_not_resource {e : Event} (h : isTokenCall e = true) :
    isResourceCall e = false := by
  cases e with
  | httpToken ps => rfl
  | httpResource m ep ps b => simp [isTokenCall] at h
  | fileWrite c => simp [isTokenCall] at h
  | prompt => simp [isTokenCall] at h

/-- A token-endpoint event is not a file write. -/
theorem token_not_write {e : Event} (h : isTokenCall e = true) :
    isFileWriteEv e = false := by
  cases e with
  | httpToken ps => rfl
  | httpResource m ep ps b => simp [isTokenCall] at h
  | fileWrite c => simp [isTokenCall] at h
  | prompt => simp [isTokenCall] at h

/-- Every effect of `refreshAttempt` is a token-endpoint call. -/
theorem attempt_only_token_calls (env : Env) (s1 : ClientState) :
    ((refreshAttempt env s1).2.2.all fun e => isTokenCall e) = true := by
  unfold refreshAttempt
  dsimp only
  split
  · rfl
  · split <;> rfl

/-- Every effect of `refresh_access_token` is a token-endpoint call. -/
theorem refresh_only_token_calls (env : Env) (s : ClientState) :
    ((refresh_access_token env s).2.2.all fun e => isTokenCall e) = true := by
  unfold refresh_access_token
  exact attempt_only_token_calls env _

/-- Every effect of `get_access_token` is a token-endpoint call. -/
theorem get_access_token_only_token_calls (env : Env) (s : ClientState) :
    ((get_access_token env s).2.2.all fun e => isTokenCall e) = true := by
  unfold get_access_token ensure_valid_token
  dsimp only
  split
  · exact refresh_only_token_calls env s
  · rfl

/-- A trace of token-endpoint calls only has no resource calls. -/
theorem countResource_zero_of_all_token {es : List Event}
    (h : (es.all fun e => isTokenCall e) = true) :
    countResourceCalls es = 0 := by
  have hnil : List.filter isResourceCall es = [] := by
    rw [List.filter_eq_nil_iff]
    intro e he
    simp [token_not_resource (List.all_eq_true.mp h e he)]
  simp [countResourceCalls, hnil]

/-- A trace of token-endpoint calls only has no file writes. -/
theorem countWrites_zero_of_all_token {es : List Event}
    (h : (es.all fun e => isTokenCall e) = true) :
    countFileWrites es = 0 := by
  have hnil : List.filter isFileWriteEv es = [] := by
    rw [List.filter_eq_nil_iff]
    intro e he
    simp [token_not_write (List.all_eq_true.mp h e he)]
  simp [countFileWrites, hnil]

/-- Claim C2, counterexample: the claim says `_ensure_valid_token`
returns true for every token state, but on a state with no access token,
no refresh token and no stored file it returns `False` (the refresh
fails), even though the token endpoint would answer 200. -/
theorem ensure_valid_token_returns_false_case :
    (ensure_valid_token envOkEmpty sBase).1 = false := rfl

/-- Claim C2, amended: when the access token is present and unexpired,
`_ensure_valid_token` returns true with no network activity and no state
change; otherwise it delegates entirely to `refresh_access_token` and
returns its result, which is `False` when the refresh fails. -/
theorem ensure_valid_token_spec (env : Env) (s : ClientState) :
    (tokenStale env s = false → ensure_valid_token env s = (true, s, [])) ∧
    (tokenStale env s = true → ensure_valid_token env s = refresh_access_token env s) :=
  ⟨ensure_valid_token_fresh env s,
   fun h => by unfold ensure_valid_token; rw [h]; simp⟩

/-- Claim C2 witness: the fresh case of `ensure_valid_token_spec` at a
concrete state. -/
theorem ensure_valid_token_spec_witness :
    ensure_valid_token envOkEmpty sFresh = (true, sFresh, []) :=
  (ensure_valid_token_spec envOkEmpty sFresh).1 rfl

/-- Claim C4, counterexample: on a 201 response (a 2xx success carrying a
full token pair) the claim says `get_grant_token` stores the tokens and
returns true, but the code tests `status_code == 200`, so it returns
`False`, stores nothing and writes no file. -/
theorem get_grant_token_2xx_failure :
    (get_grant_token env201 sBase "code").1 = false ∧
    (get_grant_token env201 sBase "code").2.1 = sBase ∧
    countFileWrites (get_grant_token env201 sBase "code").2.2 = 0 :=
  ⟨rfl, rfl, rfl⟩

/-- Claim C4, amended: on a non-200 token-endpoint response
`get_grant_token` returns `False` without raising, leaving the state
unchanged and writing no file; on a 200 response it stores the access and
refresh tokens from the body, sets the expiry, persists the refresh token
to the file and returns `True`. -/
theorem get_grant_token_spec (env : Env) (s : ClientState) (code : String) :
    ((env.tokenResp (grantParams s code)).status ≠ 200 →
      get_grant_token env s code = (false, s, [.httpToken (grantParams s code)])) ∧
    ((env.tokenResp (grantParams s code)).status = 200 →
      get_grant_token env s code =
        (true,
         { s with
            access_token := jGetStr (env.tokenResp (grantParams s code)).body "access_token"
            refresh_token := jGetStr (env.tokenResp (grantParams s code)).body "refresh_token"
            token_expiry := some (env.now +
              jGetIntD (env.tokenResp (grantParams s code)).body "expires_in" 3600) },
         [.httpToken (grantParams s code),
          .fileWrite (jGetStr (env.tokenResp (grantParams s code)).body "refresh_token")])) := by
  constructor <;> intro h <;> simp [get_grant_token, h]

/-- Claim C4 witness: the non-200 branch of `get_grant_token_spec` at the
201 environment. -/
theorem get_grant_token_spec_witness :
    get_grant_token env201 sBase "code" =
      (false, sBase, [.httpToken (grantParams sBase "code")]) :=
  (get_grant_token_spec env201 sBase "code").1 (by decide)

/-- Claim C5, counterexample: the claim says every non-2xx resource
response raises, but `raise_for_status` only raises for statuses in
`[400, 600)`: a 304 response (non-2xx) is returned as a success, after a
single request. -/
theorem make_request_304_not_raised :
    (make_request env304 sFresh "GET" "invoices" [] none).1 =
      .ok { status := 304, body := .jobj [] } ∧
    countResourceCalls (make_request env304 sFresh "GET" "invoices" [] none).2.2 = 1 :=
  ⟨rfl, rfl⟩

/-- Claim C5, amended: with a valid token, a resource call through
`_make_request` issues exactly one HTTP request to the resource API (no
retry), raises `HTTPError` to the caller when the status is in
`[400, 600)` (4xx or 5xx), and returns the response otherwise. -/
theorem make_request_error_spec (env : Env) (s : ClientState)
    (m ep : String) (ps : List (String × String)) (b : Option JVal)
    (h : tokenStale env s = false) :
    countResourceCalls (make_request env s m ep ps b).2.2 = 1 ∧
    (400 ≤ (env.resourceResp m ep (setKey ps "organization_id" s.organization_id) b).status ∧
       (env.resourceResp m ep (setKey ps "organization_id" s.organization_id) b).status < 600 →
      (make_request env s m ep ps b).1 =
        .error (.httpError (env.resourceResp m ep (setKey ps "organization_id" s.organization_id) b).status)) ∧
    (¬(400 ≤ (env.resourceResp m ep (setKey ps "organization_id" s.organization_id) b).status ∧
        (env.resourceResp m ep (setKey ps "organization_id" s.organization_id) b).status < 600) →
      (make_request env s m ep ps b).1 =
        .ok (env.resourceResp m ep (setKey ps "organization_id" s.organization_id) b)) := by
  rw [make_request_fresh env s m ep ps b h]
  by_cases hc : 400 ≤ (env.resourceResp m ep (setKey ps "organization_id" s.organization_id) b).status ∧
      (env.resourceResp m ep (setKey ps "organization_id" s.organization_id) b).status < 600
  · simp [hc, countResourceCalls, isResourceCall]
  · simp [hc, countResourceCalls, isResourceCall]

/-- Claim C5 witness: `make_request_error_spec` at a 404 environment, a
fresh token, and empty caller params. -/
theorem make_request_error_spec_witness :
    countResourceCalls (make_request env404 sFresh "GET" "invoices" [] none).2.2 = 1 ∧
    (make_request env404 sFresh "GET" "invoices" [] none).1 = .error (.httpError 404) := by
  have h := make_request_error_spec env404 sFresh "GET" "invoices" [] none rfl
  exact ⟨h.1, h.2.1 (by decide)⟩

/-- Claim C6: when `get_access_token` cannot supply a token (returns
`None`), `_make_request` raises `ValueError` and performs no request to
the resource API. -/
theorem make_request_no_token_aborts (env : Env) (s : ClientState)
    (m ep : String) (ps : List (String × String)) (b : Option JVal)
    (h : (get_access_token env s).1 = none) :
    (make_request env s m ep ps b).1 =
      .error (.valueError "Failed to obtain a valid access token.") ∧
    countResourceCalls (make_request env s m ep ps b).2.2 = 0 := by
  unfold make_request
  dsimp only
  rw [h]
  simp only [pyTruthyStrOpt, Bool.not_false, if_true]
  refine ⟨?_, countResource_zero_of_all_token (get_access_token_only_token_calls env s)⟩
  trivial

/-- Claim C6 witness: `make_request_no_token_aborts` at a state with no
tokens at all. -/
theorem make_request_no_token_aborts_witness :
    (make_request envOkEmpty sBase "GET" "invoices" [] none).1 =
      .error (.valueError "Failed to obtain a valid access token.") ∧
    countResourceCalls (make_request envOkEmpty sBase "GET" "invoices" [] none).2.2 = 0 :=
  make_request_no_token_aborts envOkEmpty sBase "GET" "invoices" [] none rfl

/-- Claim C9: with a valid token, the params actually sent by
`_make_request` are the caller's params with `organization_id` set to the
client's organization id: it looks up to that id and every entry under
that key holds it, even if the caller's dict already had a different
value (overwritten, not merged). -/
theorem make_request_org_id_overwrites (env : Env) (s : ClientState)
    (m ep : String) (ps : List (String × String)) (b : Option JVal)
    (hfresh : tokenStale env s = false)
    (hnd : (ps.map Prod.fst).Nodup) :
    (make_request env s m ep ps b).2.2 =
      [.httpResource m ep (setKey ps "organization_id" s.organization_id) b] ∧
    List.lookup "organization_id" (setKey ps "organization_id" s.organization_id) =
      some s.organization_id ∧
    ∀ p ∈ setKey ps "organization_id" s.organization_id,
      p.1 = "organization_id" → p.2 = s.organization_id := by
  refine ⟨?_, lookup_setKey ps _ _, mem_setKey ps _ _ hnd⟩
  rw [make_request_fresh env s m ep ps b hfresh]
  split <;> rfl

/-- Caller params already carrying a spoofed `organization_id`. -/
def psSpoof : List (String × String) := [("organization_id", "spoof"), ("page", "1")]

/-- Claim C9 witness: `make_request_org_id_overwrites` where the caller
already passes a different `organization_id`. -/
theorem make_request_org_id_overwrites_witness :
    (make_request envOkEmpty sFresh "GET" "invoices" psSpoof none).2.2 =
      [.httpResource "GET" "invoices" (setKey psSpoof "organization_id" sFresh.organization_id) none] ∧
    List.lookup "organization_id" (setKey psSpoof "organization_id" sFresh.organization_id) =
      some sFresh.organization_id ∧
    ∀ p ∈ setKey psSpoof "organization_id" sFresh.organization_id,
      p.1 = "organization_id" → p.2 = sFresh.organization_id :=
  make_request_org_id_overwrites envOkEmpty sFresh "GET" "invoices" psSpoof none rfl (by decide)

/-- The refresh token `refresh_access_token` will use: the in-memory one
if truthy, else whatever `_load_refresh_token` finds. -/
def availableRefresh (env : Env) (s : ClientState) : Option String :=
  (if pyTruthyStrOpt s.refresh_token then s else load_refresh_token env s).refresh_token

/-- With a truthy refresh token, `refreshAttempt` makes exactly one
token-endpoint call and no resource calls. -/
theorem attempt_one_call (env : Env) (s1 : ClientState)
    (h : pyTruthyStrOpt s1.refresh_token = true) :
    countTokenCalls (refreshAttempt env s1).2.2 = 1 ∧
    countResourceCalls (refreshAttempt env s1).2.2 = 0 := by
  unfold refreshAttempt
  rw [h]
  simp only [Bool.not_true, Bool.false_eq_true, if_false]
  split <;>
    simp [countTokenCalls, countResourceCalls, List.filter, isTokenCall, isResourceCall]

/-- With an available refresh token, `refresh_access_token` makes exactly
one token-endpoint call and no resource calls. -/
theorem refresh_one_call (env : Env) (s : ClientState)
    (h : pyTruthyStrOpt (availableRefresh env s) = true) :
    countTokenCalls (refresh_access_token env s).2.2 = 1 ∧
    countResourceCalls (refresh_access_token env s).2.2 = 0 := by
  unfold availableRefresh at h
  unfold refresh_access_token
  exact attempt_one_call env _ h

/-- When the token is stale, `get_access_token`'s effects are exactly
those of `refresh_access_token`. -/
theorem get_access_token_trace_stale (env : Env) (s : ClientState)
    (h : tokenStale env s = true) :
    (get_access_token env s).2.2 = (refresh_access_token env s).2.2 := by
  unfold get_access_token ensure_valid_token
  rw [h]
  simp

/-- A truthy access token with an unexpired (or absent) expiry is not
stale. -/
theorem not_stale_of_future (env : Env) (s : ClientState)
    (hacc : pyTruthyStrOpt s.access_token = true)
    (hfut : ∀ e, s.token_expiry = some e → env.now < e) :
    tokenStale env s = false := by
  unfold tokenStale
  rw [hacc]
  cases hexp : s.token_expiry with
  | none => simp
  | some e =>
    simp only [Bool.not_true, Bool.false_or]
    exact decide_eq_false (Int.not_le.mpr (hfut e hexp))

/-- Claim C3, counterexample: a state whose access token is present with
an expiry in the past but with no refresh token available makes zero
network calls in `get_access_token` (no refresh call at all), where the
claim demands exactly one. -/
theorem get_access_token_expired_zero_calls :
    pyTruthyStrOpt sExpiredNoRefresh.access_token = true ∧
    (∃ e, sExpiredNoRefresh.token_expiry = some e ∧ e ≤ envOkEmpty.now) ∧
    (get_access_token envOkEmpty sExpiredNoRefresh).2.2 = [] :=
  ⟨rfl, ⟨-1, rfl, by decide⟩, rfl⟩

/-- Claim C3, amended: when the stored token is stale (absent or expired)
and a refresh token is available in memory or in the stored file,
`get_access_token` makes exactly one token-endpoint call and no resource
calls; when the access token is present and its expiry is in the future,
it performs no effects at all. -/
theorem get_access_token_call_counts (env : Env) (s : ClientState) :
    (tokenStale env s = true → pyTruthyStrOpt (availableRefresh env s) = true →
      countTokenCalls (get_access_token env s).2.2 = 1 ∧
      countResourceCalls (get_access_token env s).2.2 = 0) ∧
    (pyTruthyStrOpt s.access_token = true →
      (∀ e, s.token_expiry = some e → env.now < e) →
      (get_access_token env s).2.2 = []) := by
  constructor
  · intro hstale havail
    rw [get_access_token_trace_stale env s hstale]
    exact refresh_one_call env s havail
  · intro hacc hfut
    rw [get_access_token_fresh env s (not_stale_of_future env s hacc hfut)]

/-- A state with an expired access token and a refresh token in memory. -/
def sExpiredWithRefresh : ClientState :=
  { sBase with
    access_token := some "tok"
    token_expiry := some (-1)
    refresh_token := some "rt" }

/-- Claim C3 witness: the stale branch of `get_access_token_call_counts`
at an expired token with a refresh token in memory. -/
theorem get_access_token_call_counts_witness :
    countTokenCalls (get_access_token envOkEmpty sExpiredWithRefresh).2.2 = 1 ∧
    countResourceCalls (get_access_token envOkEmpty sExpiredWithRefresh).2.2 = 0 :=
  (get_access_token_call_counts envOkEmpty sExpiredWithRefresh).1 rfl rfl

/-- Claim C7: on a 200 response, `list_invoices`, `list_items` and
`list_contacts` each return the named array field of the JSON body, and
return the empty list (not an error, not an absent value) when that field
is missing. -/
theorem list_ops_default_empty (env : Env) (s : ClientState)
    (hfresh : tokenStale env s = false)
    (hi : (env.resourceResp "GET" "invoices" [("organization_id", s.organization_id)] none).status = 200)
    (ht : (env.resourceResp "GET" "items" [("organization_id", s.organization_id)] none).status = 200)
    (hc : (env.resourceResp "GET" "contacts" [("organization_id", s.organization_id)] none).status = 200) :
    ((list_invoices env s).1 =
      .ok (jGetD (env.resourceResp "GET" "invoices" [("organization_id", s.organization_id)] none).body
            "invoices" (.jarr [])) ∧
     (jLookup (env.resourceResp "GET" "invoices" [("organization_id", s.organization_id)] none).body
        "invoices" = none → (list_invoices env s).1 = .ok (.jarr []))) ∧
    ((list_items env s).1 =
      .ok (jGetD (env.resourceResp "GET" "items" [("organization_id", s.organization_id)] none).body
            "items" (.jarr [])) ∧
     (jLookup (env.resourceResp "GET" "items" [("organization_id", s.organization_id)] none).body
        "items" = none → (list_items env s).1 = .ok (.jarr []))) ∧
    ((list_contacts env s).1 =
      .ok (jGetD (env.resourceResp "GET" "contacts" [("organization_id", s.organization_id)] none).body
            "contacts" (.jarr [])) ∧
     (jLookup (env.resourceResp "GET" "contacts" [("organization_id", s.organization_id)] none).body
        "contacts" = none → (list_contacts env s).1 = .ok (.jarr []))) := by
  have hmi := make_request_fresh env s "GET" "invoices" [] none hfresh
  have hmt := make_request_fresh env s "GET" "items" [] none hfresh
  have hmc := make_request_fresh env s "GET" "contacts" [] none hfresh
  simp only [setKey] at hmi hmt hmc
  refine ⟨⟨?_, ?_⟩, ⟨?_, ?_⟩, ⟨?_, ?_⟩⟩
  · unfold list_invoices
    rw [hmi]
    simp [hi]
  · intro hnone
    unfold list_invoices
    rw [hmi]
    simp [hi, jGetD, hnone]
  · unfold list_items
    rw [hmt]
    simp [ht]
  · intro hnone
    unfold list_items
    rw [hmt]
    simp [ht, jGetD, hnone]
  · unfold list_contacts
    rw [hmc]
    simp [hc]
  · intro hnone
    unfold list_contacts
    rw [hmc]
    simp [hc, jGetD, hnone]

/-- Claim C7 witness: `list_ops_default_empty` where every response body
is the empty object, so all three return the empty list. -/
theorem list_ops_default_empty_witness :
    (list_invoices envOkEmpty sFresh).1 = .ok (.jarr []) ∧
    (list_items envOkEmpty sFresh).1 = .ok (.jarr []) ∧
    (list_contacts envOkEmpty sFresh).1 = .ok (.jarr []) := by
  have h := list_ops_default_empty envOkEmpty sFresh rfl rfl rfl rfl
  exact ⟨h.1.2 rfl, h.2.1.2 rfl, h.2.2.2 rfl⟩

/-- `refreshAttempt` never changes the refresh token: in particular it
ignores any `refresh_token` field of the response. -/
theorem attempt_keeps_refresh (env : Env) (s1 : ClientState) :
    (refreshAttempt env s1).2.1.refresh_token = s1.refresh_token := by
  unfold refreshAttempt
  dsimp only
  split
  · rfl
  · split <;> rfl

/-- On failure, `refreshAttempt` returns its input state unchanged. -/
theorem attempt_fail_state (env : Env) (s1 : ClientState) :
    (refreshAttempt env s1).1 = false → (refreshAttempt env s1).2.1 = s1 := by
  unfold refreshAttempt
  dsimp only
  split
  · intro _
    rfl
  · split
    · intro h
      simp at h
    · intro _
      rfl

/-- Loading the refresh token touches no other attribute. -/
theorem load_preserves_rest (env : Env) (s : ClientState) :
    (load_refresh_token env s).access_token = s.access_token ∧
    (load_refresh_token env s).token_expiry = s.token_expiry := by
  unfold load_refresh_token
  cases env.file <;> simp

/-- Claim C10, counterexample: the claim says `refresh_access_token`
never modifies the stored refresh token, but starting from a state with
no in-memory refresh token and a file holding one, the call changes
`self.refresh_token` from `None` to the file's token. -/
theorem refresh_loads_refresh_token :
    sBase.refresh_token = none ∧
    (refresh_access_token envFileTok sBase).2.1.refresh_token = some "rt" :=
  ⟨rfl, rfl⟩

/-- Claim C10, amended: `refresh_access_token` never writes the
refresh-token file, and never takes a refresh token from the response:
the resulting in-memory refresh token is exactly the one that was
available before the call (the in-memory one if truthy, else the file's),
so a truthy in-memory refresh token is never modified; and on failure the
access token and expiry are unchanged. -/
theorem refresh_access_token_frame (env : Env) (s : ClientState) :
    countFileWrites (refresh_access_token env s).2.2 = 0 ∧
    (refresh_access_token env s).2.1.refresh_token = availableRefresh env s ∧
    (pyTruthyStrOpt s.refresh_token = true →
      (refresh_access_token env s).2.1.refresh_token = s.refresh_token) ∧
    ((refresh_access_token env s).1 = false →
      (refresh_access_token env s).2.1.access_token = s.access_token ∧
      (refresh_access_token env s).2.1.token_expiry = s.token_expiry) := by
  have hkeep : (refresh_access_token env s).2.1.refresh_token = availableRefresh env s := by
    unfold refresh_access_token availableRefresh
    exact attempt_keeps_refresh env _
  refine ⟨countWrites_zero_of_all_token (refresh_only_token_calls env s), hkeep, ?_, ?_⟩
  · intro h
    rw [hkeep]
    unfold availableRefresh
    rw [h]
    simp
  · intro hfail
    unfold refresh_access_token at hfail ⊢
    rw [attempt_fail_state env _ hfail]
    by_cases h : pyTruthyStrOpt s.refresh_token = true
    · rw [if_pos h]
      exact ⟨rfl, rfl⟩
    · rw [if_neg h]
      exact load_preserves_rest env s

/-- Claim C10 witness: `refresh_access_token_frame`'s failure branch at a
500 token endpoint with the refresh token coming from the file. -/
theorem refresh_access_token_frame_witness :
    countFileWrites (refresh_access_token envFileTok sBase).2.2 = 0 ∧
    (refresh_access_token envFileTok sBase).2.1.access_token = sBase.access_token ∧
    (refresh_access_token envFileTok sBase).2.1.token_expiry = sBase.token_expiry := by
  have h := refresh_access_token_frame envFileTok sBase
  exact ⟨h.1, (h.2.2.2 rfl).1, (h.2.2.2 rfl).2⟩

/-- A status below 400 never triggers `raise_for_status`. -/
theorem no_raise_of_ok {st : Nat} (h : st < 400) : ¬(400 ≤ st ∧ st < 600) :=
  fun hcon => absurd hcon.1 (not_le.mpr h)

/-- The entity `get_item(item_id)` extracts from the environment's
response, for a client in organization `org`. -/
def lookedUpItem (env : Env) (org : String) (item_id : String) : JVal :=
  jGetD (env.resourceResp "GET" ("items/" ++ item_id) [("organization_id", org)] none).body
    "item" (.jobj [])

/-- The line items `create_invoice` submits: one per zipped
(identifier, quantity) pair whose looked-up entity is truthy, in order;
pairs whose lookup yields a falsy entity contribute nothing. -/
def expectedLineItems (env : Env) (org : String) : List (String × Int) → List JVal
  | [] => []
  | (item_id, q) :: rest =>
    if (lookedUpItem env org item_id).truthy then
      mkLineItem item_id q (lookedUpItem env org item_id) :: expectedLineItems env org rest
    else
      expectedLineItems env org rest

/-- With a fresh token and a below-400 response, `get_item` returns the
looked-up entity after exactly one GET. -/
theorem get_item_fresh (env : Env) (s : ClientState) (item_id : String)
    (hfresh : tokenStale env s = false)
    (hok : ∀ m ep ps b, (env.resourceResp m ep ps b).status < 400) :
    get_item env s item_id =
      (.ok (lookedUpItem env s.organization_id item_id), s,
       [.httpResource "GET" ("items/" ++ item_id)
          [("organization_id", s.organization_id)] none]) := by
  unfold get_item
  have hm := make_request_fresh env s "GET" ("items/" ++ item_id) [] none hfresh
  simp only [setKey] at hm
  rw [hm]
  rw [if_neg (no_raise_of_ok (hok "GET" ("items/" ++ item_id)
        [("organization_id", s.organization_id)] none))]
  rfl

/-- With a fresh token and below-400 responses, the `create_invoice`
loop performs exactly one item lookup per pair and collects
`expectedLineItems`, leaving the state unchanged. -/
theorem buildLineItems_fresh (env : Env) (s : ClientState)
    (hfresh : tokenStale env s = false)
    (hok : ∀ m ep ps b, (env.resourceResp m ep ps b).status < 400)
    (pairs : List (String × Int)) :
    buildLineItems env s pairs =
      (.ok (expectedLineItems env s.organization_id pairs), s,
       pairs.map fun p =>
         Event.httpResource "GET" ("items/" ++ p.1)
           [("organization_id", s.organization_id)] none) := by
  induction pairs with
  | nil => rfl
  | cons hd rest ih =>
    obtain ⟨item_id, q⟩ := hd
    unfold buildLineItems
    rw [get_item_fresh env s item_id hfresh hok]
    dsimp only
    rw [ih]
    dsimp only
    have hexp : expectedLineItems env s.organization_id ((item_id, q) :: rest) =
        if (lookedUpItem env s.organization_id item_id).truthy then
          mkLineItem item_id q (lookedUpItem env s.organization_id item_id) ::
            expectedLineItems env s.organization_id rest
        else expectedLineItems env s.organization_id rest := rfl
    rw [hexp]
    split <;> simp

/-- Resource-call counting distributes over trace concatenation. -/
theorem countResource_append (es1 es2 : List Event) :
    countResourceCalls (es1 ++ es2) = countResourceCalls es1 + countResourceCalls es2 := by
  simp [countResourceCalls, List.filter_append]

/-- Token-call counting distributes over trace concatenation. -/
theorem countToken_append (es1 es2 : List Event) :
    countTokenCalls (es1 ++ es2) = countTokenCalls es1 + countTokenCalls es2 := by
  simp [countTokenCalls, List.filter_append]

/-- A trace of one item lookup per pair counts one resource call per
pair. -/
theorem countResource_lookup_trace (org : String) (l : List (String × Int)) :
    countResourceCalls (l.map fun p =>
      Event.httpResource "GET" ("items/" ++ p.1) [("organization_id", org)] none) = l.length := by
  induction l with
  | nil => rfl
  | cons x xs ih =>
    simp only [countResourceCalls] at ih ⊢
    simp [isResourceCall, ih]

/-- A trace of item lookups contains no token-endpoint calls. -/
theorem countToken_lookup_trace (org : String) (l : List (String × Int)) :
    countTokenCalls (l.map fun p =>
      Event.httpResource "GET" ("items/" ++ p.1) [("organization_id", org)] none) = 0 := by
  induction l with
  | nil => rfl
  | cons x xs ih =>
    simp only [countTokenCalls] at ih ⊢
    simp [isTokenCall, ih]

/-- Claim C1: with a valid token, equal-length inputs and below-400
responses, `create_invoice` performs exactly one `get_item` lookup per
(identifier, quantity) pair followed by exactly one invoice-creation
POST, and the submitted `line_items` are `expectedLineItems`: any pair
whose lookup yields a falsy entity (for example, a body without an
`item` field) is silently omitted.  In counts: N lookups plus one
creation call and no token-endpoint calls. -/
theorem create_invoice_calls (env : Env) (s : ClientState)
    (customer_id : String) (items : List String) (quantities : List Int)
    (hfresh : tokenStale env s = false)
    (hlen : items.length = quantities.length)
    (hok : ∀ m ep ps b, (env.resourceResp m ep ps b).status < 400) :
    create_invoice env s customer_id items quantities =
      (.ok (jGetD (jGetD (env.resourceResp "POST" "invoices"
              [("organization_id", s.organization_id)]
              (some (invoiceBody customer_id
                (expectedLineItems env s.organization_id (items.zip quantities))))).body
            "invoice" (.jobj [])) "invoice_id" .jnull),
       s,
       ((items.zip quantities).map fun p =>
          Event.httpResource "GET" ("items/" ++ p.1)
            [("organization_id", s.organization_id)] none) ++
       [Event.httpResource "POST" "invoices" [("organization_id", s.organization_id)]
          (some (invoiceBody customer_id
            (expectedLineItems env s.organization_id (items.zip quantities))))]) ∧
    countResourceCalls (create_invoice env s customer_id items quantities).2.2 =
      items.length + 1 ∧
    countTokenCalls (create_invoice env s customer_id items quantities).2.2 = 0 := by
  have hb := buildLineItems_fresh env s hfresh hok (items.zip quantities)
  have hm := make_request_fresh env s "POST" "invoices" []
      (some (invoiceBody customer_id
        (expectedLineItems env s.organization_id (items.zip quantities)))) hfresh
  simp only [setKey] at hm
  have heq : create_invoice env s customer_id items quantities =
      (.ok (jGetD (jGetD (env.resourceResp "POST" "invoices"
              [("organization_id", s.organization_id)]
              (some (invoiceBody customer_id
                (expectedLineItems env s.organization_id (items.zip quantities))))).body
            "invoice" (.jobj [])) "invoice_id" .jnull),
       s,
       ((items.zip quantities).map fun p =>
          Event.httpResource "GET" ("items/" ++ p.1)
            [("organization_id", s.organization_id)] none) ++
       [Event.httpResource "POST" "invoices" [("organization_id", s.organization_id)]
          (some (invoiceBody customer_id
            (expectedLineItems env s.organization_id (items.zip quantities))))]) := by
    unfold create_invoice
    rw [hb]
    dsimp only
    rw [hm]
    rw [if_neg (no_raise_of_ok (hok "POST" "invoices"
          [("organization_id", s.organization_id)]
          (some (invoiceBody customer_id
            (expectedLineItems env s.organization_id (items.zip quantities))))))]
  refine ⟨heq, ?_, ?_⟩
  · rw [heq]
    dsimp only
    rw [countResource_append, countResource_lookup_trace]
    have hz : (items.zip quantities).length = items.length := by
      rw [List.length_zip, hlen, Nat.min_self]
    rw [hz]
    simp [countResourceCalls, List.filter, isResourceCall]
  · rw [heq]
    dsimp only
    rw [countToken_append, countToken_lookup_trace]
    simp [countTokenCalls, List.filter, isTokenCall]

/-- A resource API whose every response carries an `item` entity. -/
def envItems : Env :=
  { envOkEmpty with resourceResp := fun _ _ _ _ =>
      { status := 200,
        body := .jobj [("item", .jobj [("name", .jstr "Widget"), ("rate", .jnum 5)])] } }

/-- Claim C1 witness: the call counts of `create_invoice_calls` at two
items with a fresh token. -/
theorem create_invoice_calls_witness :
    countResourceCalls
      (create_invoice envItems sFresh "cust" ["i1", "i2"] [2, 3]).2.2 = 2 + 1 ∧
    countTokenCalls
      (create_invoice envItems sFresh "cust" ["i1", "i2"] [2, 3]).2.2 = 0 :=
  ⟨(create_invoice_calls envItems sFresh "cust" ["i1", "i2"] [2, 3] rfl rfl
      (fun _ _ _ _ => (by decide : (200 : Nat) < 400))).2.1,
   (create_invoice_calls envItems sFresh "cust" ["i1", "i2"] [2, 3] rfl rfl
      (fun _ _ _ _ => (by decide : (200 : Nat) < 400))).2.2⟩

/-- When no refresh token is in memory, `_ensure_auth` prompts, exchanges
the entered code, raises on a non-200 exchange, and on a 200 exchange
completes with the refresh token persisted to the file. -/
theorem ensure_auth_no_token (env : Env) (s : ClientState) (code : String)
    (h : pyTruthyStrOpt s.refresh_token = false) :
    Event.prompt ∈ (ensure_auth env s code).2 ∧
    Event.httpToken (grantParams s code) ∈ (ensure_auth env s code).2 ∧
    ((env.tokenResp (grantParams s code)).status ≠ 200 →
      (ensure_auth env s code).1 = .error (.valueError "Failed to obtain grant token.")) ∧
    ((env.tokenResp (grantParams s code)).status = 200 →
      (∃ s', (ensure_auth env s code).1 = .ok s') ∧
      Event.fileWrite (jGetStr (env.tokenResp (grantParams s code)).body "refresh_token") ∈
        (ensure_auth env s code).2) := by
  unfold ensure_auth
  rw [h]
  simp only [Bool.not_false, if_true]
  by_cases h200 : (env.tokenResp (grantParams s code)).status = 200
  · have hg : get_grant_token env s code =
        (true,
         { s with
            access_token := jGetStr (env.tokenResp (grantParams s code)).body "access_token"
            refresh_token := jGetStr (env.tokenResp (grantParams s code)).body "refresh_token"
            token_expiry := some (env.now +
              jGetIntD (env.tokenResp (grantParams s code)).body "expires_in" 3600) },
         [.httpToken (grantParams s code),
          .fileWrite (jGetStr (env.tokenResp (grantParams s code)).body "refresh_token")]) := by
      simp [get_grant_token, h200]
    rw [hg]
    dsimp only
    refine ⟨?_, ?_, fun hne => absurd h200 hne, fun _ => ⟨⟨_, rfl⟩, ?_⟩⟩
    · simp
    · simp
    · simp
  · have hg : get_grant_token env s code = (false, s, [.httpToken (grantParams s code)]) := by
      simp [get_grant_token, h200]
    rw [hg]
    dsimp only
    refine ⟨?_, ?_, fun _ => rfl, fun hc => absurd hc h200⟩
    · simp
    · simp

/-- The client state right after `__init__` runs `_load_refresh_token`. -/
def loadedInit (env : Env) (cid csec ruri org : String) : ClientState :=
  load_refresh_token env (initState cid csec ruri org)

/-- Claim C8: if no (truthy) refresh token is available after the
construction-time load, the client prompts for an authorization code and
POSTs the exchange; when the exchange fails (non-200), construction
raises `ValueError`; when it succeeds, construction completes and the
returned refresh token has been written to the file. -/
theorem init_no_refresh_token (env : Env) (cid csec ruri org code : String)
    (hload : pyTruthyStrOpt (loadedInit env cid csec ruri org).refresh_token = false) :
    Event.prompt ∈ (zohoInit env cid csec ruri org code).2 ∧
    Event.httpToken (grantParams (loadedInit env cid csec ruri org) code) ∈
      (zohoInit env cid csec ruri org code).2 ∧
    ((env.tokenResp (grantParams (loadedInit env cid csec ruri org) code)).status ≠ 200 →
      (zohoInit env cid csec ruri org code).1 =
        .error (.valueError "Failed to obtain grant token.")) ∧
    ((env.tokenResp (grantParams (loadedInit env cid csec ruri org) code)).status = 200 →
      (∃ s', (zohoInit env cid csec ruri org code).1 = .ok s') ∧
      Event.fileWrite (jGetStr (env.tokenResp
          (grantParams (loadedInit env cid csec ruri org) code)).body "refresh_token") ∈
        (zohoInit env cid csec ruri org code).2) :=
  ensure_auth_no_token env (loadedInit env cid csec ruri org) code hload

/-- Claim C8 witness: `init_no_refresh_token` with no stored file and a
successful exchange; construction completes and the refresh token is
persisted. -/
theorem init_no_refresh_token_witness :
    (∃ s', (zohoInit envGrantOk "cid" "csec" "ruri" "org" "code").1 = .ok s') ∧
    Event.fileWrite (some "rt") ∈ (zohoInit envGrantOk "cid" "csec" "ruri" "org" "code").2 := by
  have h := init_no_refresh_token envGrantOk "cid" "csec" "ruri" "org" "code" rfl
  have h200 := h.2.2.2 rfl
  exact ⟨h200.1, h200.2⟩
